import Mathlib

/-!
Shallow embedding of the concurrent scrape/upload pipeline of
plex-poster-set-helper, centred on `ScrapeHandler` in
`src/ui/gui/handlers/scrape_handler.py`:

* `ScrapeHandler._scrape_and_upload_url` (lines 130-174): one task per URL —
  fetch poster descriptors, then upload collection posters, movie posters and
  show posters in that order; every exception is caught at task level and
  converted to a `(0, error_message)` result.
* `ScrapeHandler.process_scrape_urls` (lines 21-128): submits one task per URL
  to a `ThreadPoolExecutor(max_workers=...)`, consumes futures via
  `as_completed`, maintains `completed` / `total_posters_uploaded`, and calls
  `_update_progress` once before the loop and once per consumed future.
* `ScrapeHandler.cancel` (lines 176-186): sets `is_cancelled` and shuts the
  executor down with `cancel_futures=True`, dropping not-yet-started futures.

Collaborators (`scraper_factory.scrape_url`, `upload_service.process_poster`)
are abstracted as an environment of fallible functions; exceptions are
modelled with `Except`. Thread scheduling is abstracted as an explicit
`Schedule`: the order in which the `as_completed` loop consumes results, plus
the tasks that had already started when cancellation hit (those run to
completion but their results are never consumed).
-/

abbrev Url := String
abbrev Exn := String
abbrev Desc := Nat

instance {ε α : Type} [DecidableEq ε] [DecidableEq α] :
    DecidableEq (Except ε α) := fun a b =>
  match a, b with
  | .error e1, .error e2 =>
    if h : e1 = e2 then .isTrue (congrArg Except.error h)
    else .isFalse (fun hh => h (Except.error.inj hh))
  | .error _, .ok _ => .isFalse (fun hh => Except.noConfusion hh)
  | .ok _, .error _ => .isFalse (fun hh => Except.noConfusion hh)
  | .ok a1, .ok a2 =>
    if h : a1 = a2 then .isTrue (congrArg Except.ok h)
    else .isFalse (fun hh => h (Except.ok.inj hh))

/-- The two external collaborators of one task:
`fetch` models `scraper_factory.scrape_url(url)` which returns the tuple
`(movie_posters, show_posters, collection_posters)` or raises, and
`upload` models `upload_service.process_poster(poster)` which returns or
raises. -/
structure ScrapeEnv where
  fetch : Url → Except Exn (List Desc × List Desc × List Desc)
  upload : Desc → Except Exn Unit

/-- Result value of `_scrape_and_upload_url`: the tuple
`(total_posters_uploaded, error_message or None)`. -/
structure TaskResult where
  poster_count : Nat
  error : Option Exn
deriving Repr, DecidableEq

/-- The error string built in the task-level `except` block:
`f"Error processing {url}: {str(e)}"`. -/
def errorMessage (url : Url) (e : Exn) : Exn :=
  "Error processing " ++ url ++ ": " ++ e

/-- One `for poster in ...: process_poster(poster)` loop, run under the
task-level `try`: uploads descriptors in list order until the first raise.
Returns the descriptors on which `upload` was actually invoked (in invocation
order) and the first exception, if any.  The source has no per-descriptor
handler, so the first raise ends the loop. -/
def uploadLoop (env : ScrapeEnv) : List Desc → List Desc × Option Exn
  | [] => ([], none)
  | d :: rest =>
    match env.upload d with
    | .error e => ([d], some e)
    | .ok _ =>
      let r := uploadLoop env rest
      (d :: r.1, r.2)

namespace ScrapeHandler

/-- `ScrapeHandler._scrape_and_upload_url` (lines 139-174).  Mirrors the
source: fetch; compute `total_posters` from the three fetched lists; upload
all collection posters, then all movie posters, then all show posters; return
`(total_posters, None)` on success.  Any raise lands in the single `except`
block which returns `(0, error_msg)`.  The second component is the trace of
descriptors on which `upload` was invoked. -/
def scrape_and_upload_url (env : ScrapeEnv) (url : Url) :
    TaskResult × List Desc :=
  match env.fetch url with
  | .error e => (⟨0, some (errorMessage url e)⟩, [])
  | .ok (movie_posters, show_posters, collection_posters) =>
    let total_posters :=
      movie_posters.length + show_posters.length + collection_posters.length
    match uploadLoop env collection_posters with
    | (t1, some e) => (⟨0, some (errorMessage url e)⟩, t1)
    | (t1, none) =>
      match uploadLoop env movie_posters with
      | (t2, some e) => (⟨0, some (errorMessage url e)⟩, t1 ++ t2)
      | (t2, none) =>
        match uploadLoop env show_posters with
        | (t3, some e) => (⟨0, some (errorMessage url e)⟩, t1 ++ t2 ++ t3)
        | (t3, none) => (⟨total_posters, none⟩, t1 ++ t2 ++ t3)

end ScrapeHandler

theorem uploadLoop_append (env : ScrapeEnv) (l1 l2 : List Desc) :
    uploadLoop env (l1 ++ l2) =
      match uploadLoop env l1 with
      | (t, some e) => (t, some e)
      | (t, none) => (t ++ (uploadLoop env l2).1, (uploadLoop env l2).2) := by
  induction l1 with
  | nil => simp [uploadLoop]
  | cons d rest ih =>
    simp only [List.cons_append, uploadLoop]
    cases hup : env.upload d with
    | error e => simp
    | ok u =>
      simp only [List.append_eq, ih]
      cases hrest : uploadLoop env rest with
      | mk t oe =>
        cases oe <;> simp [hrest]

theorem uploadLoop_trace_of_none (env : ScrapeEnv) (l : List Desc)
    (h : (uploadLoop env l).2 = none) : (uploadLoop env l).1 = l := by
  induction l with
  | nil => simp [uploadLoop]
  | cons d rest ih =>
    simp only [uploadLoop] at h ⊢
    cases hup : env.upload d with
    | error e => simp [hup] at h
    | ok u =>
      simp only [hup] at h ⊢
      simp [ih h]

/-- Position `j` is the first descriptor of `descs` whose upload raises:
all earlier uploads return, and the upload at `j` raises `e`. -/
abbrev FirstUploadFailure (env : ScrapeEnv) (descs : List Desc) (j : Nat)
    (e : Exn) : Prop :=
  j < descs.length ∧ (∀ d ∈ descs.take j, env.upload d = .ok ()) ∧
    env.upload (descs.getD j 0) = .error e

theorem uploadLoop_of_firstFailure (env : ScrapeEnv) (descs : List Desc)
    (j : Nat) (e : Exn) (h : FirstUploadFailure env descs j e) :
    uploadLoop env descs = (descs.take (j + 1), some e) := by
  obtain ⟨hj, hpre, hfail⟩ := h
  induction descs generalizing j with
  | nil => simp at hj
  | cons d rest ih =>
    cases j with
    | zero =>
      simp only [List.getD_cons_zero] at hfail
      simp [uploadLoop, hfail]
    | succ j =>
      have hd : env.upload d = .ok () := by
        apply hpre
        simp [List.take_succ_cons]
      have hrest : uploadLoop env rest = (rest.take (j + 1), some e) := by
        apply ih j
        · simpa using hj
        · intro x hx
          exact hpre x (by simp [List.take_succ_cons, hx])
        · simpa using hfail
      simp [uploadLoop, hd, hrest, List.take_succ_cons]

theorem scrape_eq_uploadLoop (env : ScrapeEnv) (url : Url)
    (m sh c : List Desc) (hfetch : env.fetch url = .ok (m, sh, c)) :
    ScrapeHandler.scrape_and_upload_url env url =
      match uploadLoop env (c ++ m ++ sh) with
      | (t, some e) => (⟨0, some (errorMessage url e)⟩, t)
      | (t, none) => (⟨m.length + sh.length + c.length, none⟩, t) := by
  rw [ScrapeHandler.scrape_and_upload_url, hfetch]
  rw [uploadLoop_append env (c ++ m) sh, uploadLoop_append env c m]
  cases h1 : uploadLoop env c with
  | mk t1 o1 =>
    cases o1 with
    | some e => simp [h1]
    | none =>
      cases h2 : uploadLoop env m with
      | mk t2 o2 =>
        cases o2 with
        | some e => simp [h1, h2]
        | none =>
          cases h3 : uploadLoop env sh with
          | mk t3 o3 =>
            cases o3 <;> simp [h1, h2, h3, List.append_assoc]

theorem scrape_result_of_uploadFailure (env : ScrapeEnv) (url : Url)
    (m sh c : List Desc) (j : Nat) (e : Exn)
    (hfetch : env.fetch url = .ok (m, sh, c))
    (hfail : FirstUploadFailure env (c ++ m ++ sh) j e) :
    ScrapeHandler.scrape_and_upload_url env url =
      (⟨0, some (errorMessage url e)⟩, (c ++ m ++ sh).take (j + 1)) := by
  rw [scrape_eq_uploadLoop env url m sh c hfetch,
    uploadLoop_of_firstFailure env (c ++ m ++ sh) j e hfail]

theorem scrape_result_of_fetchFailure (env : ScrapeEnv) (url : Url) (e : Exn)
    (hfetch : env.fetch url = .error e) :
    ScrapeHandler.scrape_and_upload_url env url =
      (⟨0, some (errorMessage url e)⟩, []) := by
  rw [ScrapeHandler.scrape_and_upload_url, hfetch]

/-- One argument tuple of `self.app._update_progress(current, total, url,
active_count)` (app.py lines 919-938): the progress snapshot pushed to the
observer. -/
structure Snapshot where
  completed : Nat
  total : Nat
  current_url : Url
  active_workers : Nat
deriving Repr, DecidableEq

/-- The mutable state of the `as_completed` loop in `process_scrape_urls`:
the `completed` and `total_posters_uploaded` counters plus the list of
`_update_progress` calls made so far (in call order). -/
structure BatchLoopState where
  completed : Nat
  total_posters_uploaded : Nat
  progressCalls : List Snapshot
deriving Repr, DecidableEq

/-- One iteration of the `for future in as_completed(...)` loop
(scrape_handler.py lines 73-116) on a consumed future for task `i`, in the
non-cancelled case.  `raises i = true` models `future.result()` itself
raising (the `except` branch, lines 101-116); otherwise the task body ran and
returned a `TaskResult` (lines 79-99).  In both branches the emitted
`active_workers` equals `min (total - completed_after, max_workers)`; the
success branch computes it before the increment as
`total_urls - completed - 1`, the except branch after the increment as
`total_urls - completed`.  `completed` is at most `urls.length - 1` on entry
for any real schedule, so the truncated `Nat` subtraction agrees with the
Python `int` arithmetic. -/
def consumeFuture (env : ScrapeEnv) (urls : List Url) (max_workers : Nat)
    (raises : Fin urls.length → Bool) (st : BatchLoopState)
    (i : Fin urls.length) : BatchLoopState :=
  let total_urls := urls.length
  let url := urls.get i
  let remaining := total_urls - st.completed - 1
  let active_workers := min remaining max_workers
  if raises i then
    let completed := st.completed + 1
    let remaining2 := total_urls - completed
    let active_workers2 := min remaining2 max_workers
    { completed := completed,
      total_posters_uploaded := st.total_posters_uploaded,
      progressCalls :=
        st.progressCalls ++ [⟨completed, total_urls, url, active_workers2⟩] }
  else
    let r := (ScrapeHandler.scrape_and_upload_url env url).1
    let posters :=
      match r.error with
      | some _ => st.total_posters_uploaded
      | none => st.total_posters_uploaded + r.poster_count
    let completed := st.completed + 1
    { completed := completed,
      total_posters_uploaded := posters,
      progressCalls :=
        st.progressCalls ++ [⟨completed, total_urls, url, active_workers⟩] }

/-- Abstraction of one thread-pool execution of a batch of `n` submitted
tasks.  `consumedOrder` is the sequence of futures the `as_completed` loop
consumed, in consumption order, before it either ran out of futures or
observed `is_cancelled` at the top of an iteration and broke out.
`alsoRan` are the tasks that had already started when
`cancel()` ran `shutdown(wait=False, cancel_futures=True)`: running futures
cannot be cancelled, so they run to completion, but the loop never consumes
their results.  Tasks in neither list were still pending and were cancelled
before starting, so their bodies never run.  `raises i` says whether
`future.result()` for task `i` raises when consumed. -/
structure Schedule (n : Nat) where
  consumedOrder : List (Fin n)
  alsoRan : List (Fin n)
  cancelled : Bool
  raises : Fin n → Bool

/-- A schedule that a real pool execution can produce: no future is consumed
or run twice, and when cancellation never happens every future is consumed
and none is left unconsumed. -/
abbrev Schedule.Valid {n : Nat} (s : Schedule n) : Prop :=
  (s.consumedOrder ++ s.alsoRan).Nodup ∧
    (s.cancelled = false →
      s.alsoRan = [] ∧ ∀ i : Fin n, i ∈ s.consumedOrder)

/-- Observable outcome of one `process_scrape_urls` batch: the final
counters, every `_update_progress` call in order, whether the run was
cancelled, and the tasks whose bodies actually executed. -/
structure BatchOutcome (n : Nat) where
  completed : Nat
  total_posters_uploaded : Nat
  progressCalls : List Snapshot
  cancelled : Bool
  started : List (Fin n)
deriving Repr, DecidableEq

/-- Loop state at entry of the `as_completed` loop: counters zero and the
single initial call `_update_progress(0, total_urls, active_count=
max_workers)` (line 41) already made, with the default empty `url`. -/
def initState (urls : List Url) (max_workers : Nat) : BatchLoopState :=
  ⟨0, 0, [⟨0, urls.length, "", max_workers⟩]⟩

namespace ScrapeHandler

/-- `ScrapeHandler.process_scrape_urls` (lines 21-128) under schedule `s`:
emit the initial progress call, fold the `as_completed` loop over the
consumed futures, and return the observables.  Tasks in
`s.consumedOrder ++ s.alsoRan` are the ones the pool started (their fetch and
uploads execute); the rest were cancelled while pending. -/
def process_scrape_urls (env : ScrapeEnv) (urls : List Url)
    (max_workers : Nat) (s : Schedule urls.length) :
    BatchOutcome urls.length :=
  let stF :=
    s.consumedOrder.foldl (consumeFuture env urls max_workers s.raises)
      (initState urls max_workers)
  { completed := stF.completed,
    total_posters_uploaded := stF.total_posters_uploaded,
    progressCalls := stF.progressCalls,
    cancelled := s.cancelled,
    started := s.consumedOrder ++ s.alsoRan }

end ScrapeHandler

/-- Per-task side effects of a batch: for every task the pool started, the
descriptors its body passed to `upload_service.process_poster`, in invocation
order.  Tasks never started contribute no entry at all. -/
def batchUploadEvents (env : ScrapeEnv) (urls : List Url)
    (s : Schedule urls.length) : List (Fin urls.length × List Desc) :=
  (s.consumedOrder ++ s.alsoRan).map
    (fun i => (i, (ScrapeHandler.scrape_and_upload_url env (urls.get i)).2))

/-- The per-task-completion progress snapshots of a batch: everything after
the initial notification. -/
def taskSnapshots {n : Nat} (o : BatchOutcome n) : List Snapshot :=
  o.progressCalls.drop 1

/-- What one consumed future contributes to `total_posters_uploaded`: its
reported poster count when it delivered a result without error, and zero when
it delivered an error result or raised on `future.result()`. -/
def taskContribution (env : ScrapeEnv) (urls : List Url)
    (raises : Fin urls.length → Bool) (i : Fin urls.length) : Nat :=
  if raises i then 0
  else
    match (ScrapeHandler.scrape_and_upload_url env (urls.get i)).1.error with
    | some _ => 0
    | none =>
      (ScrapeHandler.scrape_and_upload_url env (urls.get i)).1.poster_count

/-- The snapshots the loop emits while consuming futures `l`, starting from
`completed = c`: one per consumed future, carrying the new completed count,
the total, that future's url and `min (total - completed_after) max_workers`. -/
def emittedSnaps (urls : List Url) (max_workers : Nat) :
    Nat → List (Fin urls.length) → List Snapshot
  | _, [] => []
  | c, i :: rest =>
    ⟨c + 1, urls.length, urls.get i,
      min (urls.length - (c + 1)) max_workers⟩
      :: emittedSnaps urls max_workers (c + 1) rest

theorem consumeFuture_eq (env : ScrapeEnv) (urls : List Url)
    (max_workers : Nat) (raises : Fin urls.length → Bool)
    (st : BatchLoopState) (i : Fin urls.length) :
    consumeFuture env urls max_workers raises st i =
      ⟨st.completed + 1,
       st.total_posters_uploaded + taskContribution env urls raises i,
       st.progressCalls ++
         [⟨st.completed + 1, urls.length, urls.get i,
           min (urls.length - (st.completed + 1)) max_workers⟩]⟩ := by
  rw [consumeFuture, taskContribution]
  by_cases hr : raises i
  · simp [hr]
  · simp only [hr, if_false, Bool.false_eq_true]
    cases herr :
        (ScrapeHandler.scrape_and_upload_url env (urls.get i)).1.error with
    | some e => simp [herr, Nat.sub_sub]
    | none => simp [herr, Nat.sub_sub]

theorem foldl_consumeFuture (env : ScrapeEnv) (urls : List Url)
    (max_workers : Nat) (raises : Fin urls.length → Bool)
    (l : List (Fin urls.length)) (st : BatchLoopState) :
    l.foldl (consumeFuture env urls max_workers raises) st =
      ⟨st.completed + l.length,
       st.total_posters_uploaded +
         (l.map (taskContribution env urls raises)).sum,
       st.progressCalls ++ emittedSnaps urls max_workers st.completed l⟩ := by
  induction l generalizing st with
  | nil => simp [emittedSnaps]
  | cons i rest ih =>
    rw [List.foldl_cons, consumeFuture_eq, ih]
    simp [emittedSnaps, Nat.add_assoc, Nat.add_comm 1 rest.length]

theorem emittedSnaps_length (urls : List Url) (max_workers : Nat) (c : Nat)
    (l : List (Fin urls.length)) :
    (emittedSnaps urls max_workers c l).length = l.length := by
  induction l generalizing c with
  | nil => simp [emittedSnaps]
  | cons i rest ih => simp [emittedSnaps, ih]

theorem emittedSnaps_mem (urls : List Url) (max_workers : Nat) (c : Nat)
    (l : List (Fin urls.length)) (sn : Snapshot)
    (h : sn ∈ emittedSnaps urls max_workers c l) :
    sn.total = urls.length ∧
      sn.active_workers = min (urls.length - sn.completed) max_workers := by
  induction l generalizing c with
  | nil => simp [emittedSnaps] at h
  | cons i rest ih =>
    rw [emittedSnaps, List.mem_cons] at h
    cases h with
    | inl h => subst h; exact ⟨rfl, rfl⟩
    | inr h => exact ih (c + 1) h

theorem emittedSnaps_getElem (urls : List Url) (max_workers : Nat) (c : Nat)
    (l : List (Fin urls.length)) (j : Nat) (hj : j < l.length) :
    (emittedSnaps urls max_workers c l)[j]? =
      some ⟨c + j + 1, urls.length, urls.get (l.get ⟨j, hj⟩),
        min (urls.length - (c + j + 1)) max_workers⟩ := by
  induction l generalizing c j with
  | nil => simp at hj
  | cons i rest ih =>
    cases j with
    | zero => simp [emittedSnaps]
    | succ j =>
      have hj' : j < rest.length := by simpa using hj
      rw [emittedSnaps]
      simp only [List.getElem?_cons_succ, ih (c + 1) j hj']
      have : c + 1 + j = c + (j + 1) := by omega
      simp [this, List.get]

theorem process_completed (env : ScrapeEnv) (urls : List Url)
    (max_workers : Nat) (s : Schedule urls.length) :
    (ScrapeHandler.process_scrape_urls env urls max_workers s).completed =
      s.consumedOrder.length := by
  rw [ScrapeHandler.process_scrape_urls]
  simp [foldl_consumeFuture, initState]

theorem process_posters (env : ScrapeEnv) (urls : List Url)
    (max_workers : Nat) (s : Schedule urls.length) :
    (ScrapeHandler.process_scrape_urls env urls max_workers
        s).total_posters_uploaded =
      (s.consumedOrder.map (taskContribution env urls s.raises)).sum := by
  rw [ScrapeHandler.process_scrape_urls]
  simp [foldl_consumeFuture, initState]

theorem process_progressCalls (env : ScrapeEnv) (urls : List Url)
    (max_workers : Nat) (s : Schedule urls.length) :
    (ScrapeHandler.process_scrape_urls env urls max_workers s).progressCalls =
      ⟨0, urls.length, "", max_workers⟩ ::
        emittedSnaps urls max_workers 0 s.consumedOrder := by
  rw [ScrapeHandler.process_scrape_urls]
  simp [foldl_consumeFuture, initState]

theorem taskSnapshots_process (env : ScrapeEnv) (urls : List Url)
    (max_workers : Nat) (s : Schedule urls.length) :
    taskSnapshots (ScrapeHandler.process_scrape_urls env urls max_workers s) =
      emittedSnaps urls max_workers 0 s.consumedOrder := by
  rw [taskSnapshots, process_progressCalls]
  simp

theorem Schedule.consumed_length_of_uncancelled {n : Nat} (s : Schedule n)
    (hv : s.Valid) (hc : s.cancelled = false) :
    s.consumedOrder.length = n := by
  obtain ⟨hnd, hall⟩ := hv
  obtain ⟨-, hmem⟩ := hall hc
  have hnd' : s.consumedOrder.Nodup := (List.nodup_append.mp hnd).1
  apply Nat.le_antisymm
  · have := hnd'.length_le_card
    simpa using this
  · have hsub : (Finset.univ : Finset (Fin n)) ⊆ s.consumedOrder.toFinset := by
      intro i _
      simpa using hmem i
    have := Finset.card_le_card hsub
    rwa [Finset.card_univ, Fintype.card_fin,
      List.toFinset_card_of_nodup hnd'] at this

/-- State of the `ThreadPoolExecutor(max_workers=max_workers)` created at
line 45, to which `process_scrape_urls` submits one task per url (line 48):
`pending` holds submitted tasks not yet picked up by a worker thread, in
submission order; `running` the tasks currently executing on worker threads;
`done` the tasks that finished. -/
structure PoolState (n : Nat) where
  pending : List (Fin n)
  running : List (Fin n)
  done : List (Fin n)
deriving Repr, DecidableEq

/-- Transitions of the executor: a worker thread may pick up the next queued
task only while fewer than `max_workers` tasks are running (the executor
never spawns more than `max_workers` worker threads, and each thread runs one
work item at a time), and a running task may finish. -/
inductive PoolStep {n : Nat} (max_workers : Nat) :
    PoolState n → PoolState n → Prop
  | start (i : Fin n) (rest running done : List (Fin n))
      (h : running.length < max_workers) :
      PoolStep max_workers ⟨i :: rest, running, done⟩
        ⟨rest, i :: running, done⟩
  | finish (pending running done : List (Fin n)) (i : Fin n)
      (h : i ∈ running) :
      PoolStep max_workers ⟨pending, running, done⟩
        ⟨pending, running.erase i, i :: done⟩

/-- The pool state right after `process_scrape_urls` submits all tasks
(line 48): every task queued in submission order, none running or done. -/
def initPool (urls : List Url) : PoolState urls.length :=
  ⟨List.finRange urls.length, [], []⟩

/-- Pool states reachable from `init` by executor transitions. -/
inductive PoolReachable {n : Nat} (max_workers : Nat) (init : PoolState n) :
    PoolState n → Prop
  | refl : PoolReachable max_workers init init
  | step {st st' : PoolState n} :
      PoolReachable max_workers init st → PoolStep max_workers st st' →
      PoolReachable max_workers init st'

/-- `ScrapeHandler.cancel` acting on the dispatch state: `is_cancelled` is
set, and `shutdown(wait=False, cancel_futures=True)` cancels every pending
future — they move to `dropped` and will never run — while running and
finished tasks are untouched (a running future cannot be cancelled and no
thread is killed). -/
structure DispatchState (n : Nat) where
  is_cancelled : Bool
  pending : List (Fin n)
  running : List (Fin n)
  finished : List (Fin n)
  dropped : List (Fin n)
deriving Repr, DecidableEq

namespace ScrapeHandler

/-- `ScrapeHandler.cancel` (scrape_handler.py lines 176-186). -/
def cancel {n : Nat} (st : DispatchState n) : DispatchState n :=
  { is_cancelled := true,
    pending := [],
    running := st.running,
    finished := st.finished,
    dropped := st.dropped ++ st.pending }

end ScrapeHandler

/-- The tasks of a dispatch state that execute their bodies: the ones
running or already finished (pending tasks only run once started, dropped
ones never). -/
def tasksThatRun {n : Nat} (st : DispatchState n) : List (Fin n) :=
  st.running ++ st.finished

/-- The task results the batch delivers: one per finished task. -/
def resultsDelivered (env : ScrapeEnv) (urls : List Url)
    (st : DispatchState urls.length) : List TaskResult :=
  st.finished.map
    (fun i => (ScrapeHandler.scrape_and_upload_url env (urls.get i)).1)

/-- Loop state after the `as_completed` loop has consumed its first `j`
futures: "every point during a batch" of the run described by schedule `s`. -/
def batchStateAfter (env : ScrapeEnv) (urls : List Url) (max_workers : Nat)
    (s : Schedule urls.length) (j : Nat) : BatchLoopState :=
  (s.consumedOrder.take j).foldl
    (consumeFuture env urls max_workers s.raises)
    (initState urls max_workers)

/-- Claim C3 (confirmed): at every point during a batch and at its end,
`total_posters_uploaded` equals the sum of `poster_count` over the consumed
tasks that delivered a result with no error; tasks that delivered an error
result, or whose `future.result()` raised, contribute zero. -/
theorem c3_poster_sum_invariant (env : ScrapeEnv) (urls : List Url)
    (max_workers : Nat) (s : Schedule urls.length) (j : Nat) :
    (batchStateAfter env urls max_workers s j).total_posters_uploaded =
      ((s.consumedOrder.take j).map
        (taskContribution env urls s.raises)).sum ∧
    (ScrapeHandler.process_scrape_urls env urls max_workers
        s).total_posters_uploaded =
      (s.consumedOrder.map (taskContribution env urls s.raises)).sum := by
  constructor
  · rw [batchStateAfter]
    simp [foldl_consumeFuture, initState]
  · exact process_posters env urls max_workers s

/-- Claim C5 (confirmed): every per-task progress snapshot carries
`active_workers = min (total - completed, max_workers)` with `completed` the
count after the consumed task, on the success path and the exception path
alike. -/
theorem c5_active_workers (env : ScrapeEnv) (urls : List Url)
    (max_workers : Nat) (s : Schedule urls.length) (hv : s.Valid)
    (sn : Snapshot)
    (hmem : sn ∈ taskSnapshots
      (ScrapeHandler.process_scrape_urls env urls max_workers s)) :
    sn.active_workers = min (urls.length - sn.completed) max_workers ∧
      sn.total = urls.length := by
  rw [taskSnapshots_process] at hmem
  have h := emittedSnaps_mem urls max_workers 0 s.consumedOrder sn hmem
  exact ⟨h.2, h.1⟩

/-- Collaborators that always succeed and return no descriptors. -/
def envOk : ScrapeEnv :=
  ⟨fun _ => .ok ([], [], []), fun _ => .ok ()⟩

def urlsC5 : List Url := ["x", "y"]

/-- A run of two urls on one worker where `future.result()` of the first
consumed task raises, exercising the exception path. -/
def schedC5 : Schedule 2 :=
  ⟨[0, 1], [], false, fun i => decide (i.val = 0)⟩

/-- Witness for C5 at a concrete two-url run with one raising task. -/
theorem c5_active_workers_witness :
    (⟨1, 2, "x", 1⟩ : Snapshot).active_workers =
      min (urlsC5.length - (⟨1, 2, "x", 1⟩ : Snapshot).completed) 1 ∧
    (⟨1, 2, "x", 1⟩ : Snapshot).total = urlsC5.length :=
  c5_active_workers envOk urlsC5 1 schedC5 (by decide) ⟨1, 2, "x", 1⟩
    (by decide)

/-- Claim C7 (confirmed): in every reachable state of the worker pool, at
most `max_workers` tasks run concurrently. -/
theorem c7_concurrency_bound (urls : List Url) (max_workers : Nat)
    (hk : 1 ≤ max_workers) (st : PoolState urls.length)
    (hr : PoolReachable max_workers (initPool urls) st) :
    st.running.length ≤ max_workers := by
  induction hr with
  | refl => simp [initPool]
  | step hprev hstep ih =>
    cases hstep with
    | start i rest running done h => simpa using h
    | finish pending running done i h =>
      calc (running.erase i).length
          ≤ running.length := (List.erase_sublist i running).length_le
        _ ≤ max_workers := by simpa using ih

def urlsC7 : List Url := ["a", "b", "c"]

/-- Pool state after a worker picks up the first of three submitted tasks. -/
def poolStateC7 : PoolState 3 := ⟨[1, 2], [0], []⟩

/-- The initial pool state for three submitted tasks, written out. -/
def initPoolC7 : PoolState 3 := ⟨[0, 1, 2], [], []⟩

/-- Witness for C7: after the pool starts one of three submitted tasks with
`max_workers = 2`, the running count is within the bound. -/
theorem c7_concurrency_bound_witness : poolStateC7.running.length ≤ 2 := by
  apply c7_concurrency_bound urlsC7 2 (by decide) poolStateC7
  have h0 : initPool urlsC7 = initPoolC7 := by
    decide
  rw [h0]
  refine PoolReachable.step PoolReachable.refl
    (PoolStep.start (0 : Fin 3) ([1, 2] : List (Fin 3)) [] [] ?_)
  decide

/-- Claim C8 (confirmed): calling `ScrapeHandler.cancel` twice in a row has
the same effect as calling it once — same state, hence same cancelled flag,
same set of tasks that run, and same results delivered. -/
theorem c8_cancel_idempotent (env : ScrapeEnv) (urls : List Url)
    (st : DispatchState urls.length) :
    ScrapeHandler.cancel (ScrapeHandler.cancel st) =
      ScrapeHandler.cancel st ∧
    (ScrapeHandler.cancel (ScrapeHandler.cancel st)).is_cancelled =
      (ScrapeHandler.cancel st).is_cancelled ∧
    tasksThatRun (ScrapeHandler.cancel (ScrapeHandler.cancel st)) =
      tasksThatRun (ScrapeHandler.cancel st) ∧
    resultsDelivered env urls (ScrapeHandler.cancel (ScrapeHandler.cancel st))
      = resultsDelivered env urls (ScrapeHandler.cancel st) := by
  have h : ScrapeHandler.cancel (ScrapeHandler.cancel st) =
      ScrapeHandler.cancel st := by
    simp [ScrapeHandler.cancel]
  exact ⟨h, by rw [h], by rw [h], by rw [h]⟩

/-- Claim C9 (confirmed): in a task that reports no error, upload is invoked
exactly once per fetched descriptor — all collection posters first, then all
movie posters, then all show posters, each group in fetch order — and the
reported poster count is the total number of descriptors fetched. -/
theorem c9_upload_order (env : ScrapeEnv) (url : Url) (m sh c : List Desc)
    (hfetch : env.fetch url = .ok (m, sh, c))
    (hok : (ScrapeHandler.scrape_and_upload_url env url).1.error = none) :
    (ScrapeHandler.scrape_and_upload_url env url).2 = c ++ m ++ sh ∧
    (ScrapeHandler.scrape_and_upload_url env url).1.poster_count =
      m.length + sh.length + c.length := by
  have heq := scrape_eq_uploadLoop env url m sh c hfetch
  cases hU : uploadLoop env (c ++ m ++ sh) with
  | mk t o =>
    cases o with
    | some e =>
      rw [heq, hU] at hok
      simp at hok
    | none =>
      have ht : t = c ++ m ++ sh := by
        have h2 := uploadLoop_trace_of_none env (c ++ m ++ sh)
          (by rw [hU])
        rwa [hU] at h2
      subst ht
      rw [heq, hU]
      exact ⟨rfl, rfl⟩

/-- Collaborators returning one movie, one show and one collection poster. -/
def envC9 : ScrapeEnv :=
  ⟨fun _ => .ok ([1], [2], [3]), fun _ => .ok ()⟩

/-- Witness for C9 at a concrete fetch with one descriptor per group. -/
theorem c9_upload_order_witness :
    (ScrapeHandler.scrape_and_upload_url envC9 "u").2 = [3] ++ [1] ++ [2] ∧
    (ScrapeHandler.scrape_and_upload_url envC9 "u").1.poster_count =
      [1].length + [2].length + [3].length :=
  c9_upload_order envC9 "u" [1] [2] [3] rfl (by decide)

/-- Collaborators where the fetch returns two collection posters and the
upload of the first one raises. -/
def envC4 : ScrapeEnv :=
  ⟨fun _ => .ok ([], [], [10, 20]),
   fun d => if d = 10 then .error "boom" else .ok ()⟩

/-- Claim C4 counterexample: the fetch returns collection posters `[10, 20]`,
uploading `10` raises, uploading `20` would succeed — yet `20` is never
uploaded, so the remaining descriptors of the task are NOT still uploaded
after the exception, contradicting the claim. -/
theorem c4_counterexample :
    envC4.fetch "u" = .ok ([], [], [10, 20]) ∧
    envC4.upload 10 = .error "boom" ∧
    envC4.upload 20 = .ok () ∧
    ¬ (20 ∈ (ScrapeHandler.scrape_and_upload_url envC4 "u").2) := by
  decide

/-- Claim C4 (corrected): an exception raised while uploading one descriptor
is caught — but only by the task-level handler, which ABORTS the remaining
descriptors of that same task: upload is invoked exactly for the descriptors
up to and including the failing one, and the task reports an error result
with poster count 0.  (Uploads that succeeded before the failure are not
rolled back: they stay in the invocation trace.) -/
theorem c4_upload_abort_amended (env : ScrapeEnv) (url : Url)
    (m sh c : List Desc) (j : Nat) (e : Exn)
    (hfetch : env.fetch url = .ok (m, sh, c))
    (hfail : FirstUploadFailure env (c ++ m ++ sh) j e) :
    (ScrapeHandler.scrape_and_upload_url env url).1 =
      ⟨0, some (errorMessage url e)⟩ ∧
    (ScrapeHandler.scrape_and_upload_url env url).2 =
      (c ++ m ++ sh).take (j + 1) := by
  rw [scrape_result_of_uploadFailure env url m sh c j e hfetch hfail]
  exact ⟨rfl, rfl⟩

/-- Witness for the amended C4 at the concrete failing upload. -/
theorem c4_upload_abort_amended_witness :
    (ScrapeHandler.scrape_and_upload_url envC4 "u").1 =
      ⟨0, some (errorMessage "u" "boom")⟩ ∧
    (ScrapeHandler.scrape_and_upload_url envC4 "u").2 =
      (([10, 20] ++ []) ++ []).take (0 + 1) :=
  c4_upload_abort_amended envC4 "u" [] [] [10, 20] 0 "boom" rfl (by decide)

/-- Claim C6 (confirmed): a fetch exception, or an upload exception, inside a
task is caught inside the task and converted to an error-string result with
poster count 0, never re-raised to the dispatcher — and the batch still
consumes every url and emits every snapshot. -/
theorem c6_error_containment (env : ScrapeEnv) (urls : List Url)
    (max_workers : Nat) (s : Schedule urls.length) (hv : s.Valid)
    (hc : s.cancelled = false) (i : Fin urls.length) (e : Exn)
    (hf : env.fetch (urls.get i) = .error e ∨
      ∃ m sh c j, env.fetch (urls.get i) = .ok (m, sh, c) ∧
        FirstUploadFailure env (c ++ m ++ sh) j e) :
    (ScrapeHandler.scrape_and_upload_url env (urls.get i)).1 =
      ⟨0, some (errorMessage (urls.get i) e)⟩ ∧
    (ScrapeHandler.process_scrape_urls env urls max_workers s).completed =
      urls.length ∧
    (taskSnapshots (ScrapeHandler.process_scrape_urls env urls max_workers
        s)).length = urls.length := by
  refine ⟨?_, ?_, ?_⟩
  · cases hf with
    | inl h => rw [scrape_result_of_fetchFailure env _ e h]
    | inr h =>
      obtain ⟨m, sh, c, j, hfetch, hfail⟩ := h
      rw [scrape_result_of_uploadFailure env _ m sh c j e hfetch hfail]
  · rw [process_completed]
    exact s.consumed_length_of_uncancelled hv hc
  · rw [taskSnapshots_process, emittedSnaps_length]
    exact s.consumed_length_of_uncancelled hv hc

/-- Collaborators where fetching the url "bad" raises and every other call
succeeds. -/
def envC6 : ScrapeEnv :=
  ⟨fun u => if u = "bad" then .error "down" else .ok ([], [], []),
   fun _ => .ok ()⟩

def urlsC6 : List Url := ["bad", "good"]

/-- An uncancelled two-url run consuming both futures in order. -/
def schedC6 : Schedule 2 := ⟨[0, 1], [], false, fun _ => false⟩

/-- Witness for C6: the failing url still yields a full two-url batch. -/
theorem c6_error_containment_witness :
    (ScrapeHandler.scrape_and_upload_url envC6
        (urlsC6.get (0 : Fin 2))).1 =
      ⟨0, some (errorMessage (urlsC6.get (0 : Fin 2)) "down")⟩ ∧
    (ScrapeHandler.process_scrape_urls envC6 urlsC6 2 schedC6).completed =
      urlsC6.length ∧
    (taskSnapshots (ScrapeHandler.process_scrape_urls envC6 urlsC6 2
        schedC6)).length = urlsC6.length :=
  c6_error_containment envC6 urlsC6 2 schedC6 (by decide) rfl (0 : Fin 2)
    "down" (Or.inl (by decide))

/-- Claim C10 (confirmed): before any task completes the dispatcher emits one
initial progress notification with `completed = 0`, `total = urls.length` and
`active_count = max_workers`; over a full uncancelled batch the progress
callback is invoked `urls.length + 1` times. -/
theorem c10_initial_notification (env : ScrapeEnv) (urls : List Url)
    (max_workers : Nat) (s : Schedule urls.length) (hv : s.Valid)
    (hc : s.cancelled = false) :
    (ScrapeHandler.process_scrape_urls env urls max_workers
        s).progressCalls.head? =
      some ⟨0, urls.length, "", max_workers⟩ ∧
    (ScrapeHandler.process_scrape_urls env urls max_workers
        s).progressCalls.length = urls.length + 1 := by
  rw [process_progressCalls]
  refine ⟨rfl, ?_⟩
  simp [emittedSnaps_length, s.consumed_length_of_uncancelled hv hc]

def urlsC10 : List Url := ["a"]

/-- A one-url uncancelled run. -/
def schedC10 : Schedule 1 := ⟨[0], [], false, fun _ => false⟩

/-- Witness for C10 on one url with three workers: the initial notification
reports `active_count = max_workers` even when fewer tasks exist, and the
callback fires twice in total. -/
theorem c10_initial_notification_witness :
    (ScrapeHandler.process_scrape_urls envOk urlsC10 3
        schedC10).progressCalls.head? =
      some ⟨0, urlsC10.length, "", 3⟩ ∧
    (ScrapeHandler.process_scrape_urls envOk urlsC10 3
        schedC10).progressCalls.length = urlsC10.length + 1 :=
  c10_initial_notification envOk urlsC10 3 schedC10 (by decide) rfl

def urlsC1 : List Url := ["u1", "u2", "u3", "u4", "u5"]

/-- A single-worker run of five urls: the loop consumes tasks 0 and 1, task 2
had already started when `cancel()` fired (a running future cannot be
cancelled, so it runs to completion), and tasks 3 and 4 are cancelled while
pending. -/
def schedC1 : Schedule 5 := ⟨[0, 1], [2], true, fun _ => false⟩

/-- Claim C1 counterexample: under the schedule above — five urls, one
worker, cancellation requested while task 2 is in flight — task 2 runs its
fetch and uploads to completion, yet the loop observes `is_cancelled` at the
top of the next iteration and breaks before consuming its result, so the
final `completed` is 2 while 3 tasks were allowed to finish.  `completed`
therefore does not reflect exactly the tasks that were allowed to finish. -/
theorem c1_counterexample :
    Schedule.Valid schedC1 ∧ schedC1.cancelled = true ∧
    (2 : Fin 5) ∈
      (ScrapeHandler.process_scrape_urls envOk urlsC1 1 schedC1).started ∧
    ¬ ((ScrapeHandler.process_scrape_urls envOk urlsC1 1
          schedC1).completed =
        (ScrapeHandler.process_scrape_urls envOk urlsC1 1
          schedC1).started.length) := by
  decide

/-- Claim C1 (corrected): once cancellation is requested, every task that has
not yet started is never invoked (its fetch and uploads never run); tasks
already running finish without forced interruption; the final cancelled flag
is true; and the final `completed` count equals the number of tasks whose
results the dispatcher consumed before observing cancellation — at most, and
possibly strictly fewer than, the tasks that were allowed to finish, and
possibly less than total. -/
theorem c1_cancellation_amended (env : ScrapeEnv) (urls : List Url)
    (max_workers : Nat) (s : Schedule urls.length) (hv : s.Valid)
    (hc : s.cancelled = true) :
    (ScrapeHandler.process_scrape_urls env urls max_workers s).cancelled =
      true ∧
    (ScrapeHandler.process_scrape_urls env urls max_workers s).completed =
      s.consumedOrder.length ∧
    (ScrapeHandler.process_scrape_urls env urls max_workers s).completed ≤
      (ScrapeHandler.process_scrape_urls env urls max_workers
        s).started.length ∧
    (∀ i : Fin urls.length,
      i ∉ (ScrapeHandler.process_scrape_urls env urls max_workers s).started →
      ∀ tr : List Desc, (i, tr) ∉ batchUploadEvents env urls s) := by
  refine ⟨?_, process_completed env urls max_workers s, ?_, ?_⟩
  · simp [ScrapeHandler.process_scrape_urls, hc]
  · rw [process_completed]
    have hst :
        (ScrapeHandler.process_scrape_urls env urls max_workers s).started =
          s.consumedOrder ++ s.alsoRan := rfl
    rw [hst, List.length_append]
    exact Nat.le_add_right _ _
  · intro i hi tr hmem
    apply hi
    obtain ⟨x, hx, hxe⟩ := List.mem_map.mp hmem
    have hfst := congrArg Prod.fst hxe
    simp at hfst
    have hst :
        (ScrapeHandler.process_scrape_urls env urls max_workers s).started =
          s.consumedOrder ++ s.alsoRan := rfl
    rw [hst, ← hfst]
    exact hx

def urlsC1w : List Url := ["r", "t"]

/-- A cancelled two-url run where only the first consumed task counts. -/
def schedC1w : Schedule 2 := ⟨[0], [], true, fun _ => false⟩

/-- Witness for the amended C1 at a concrete cancelled run. -/
theorem c1_cancellation_amended_witness :
    (ScrapeHandler.process_scrape_urls envOk urlsC1w 1 schedC1w).cancelled =
      true ∧
    (ScrapeHandler.process_scrape_urls envOk urlsC1w 1 schedC1w).completed =
      schedC1w.consumedOrder.length ∧
    (ScrapeHandler.process_scrape_urls envOk urlsC1w 1 schedC1w).completed ≤
      (ScrapeHandler.process_scrape_urls envOk urlsC1w 1
        schedC1w).started.length ∧
    (∀ i : Fin urlsC1w.length,
      i ∉ (ScrapeHandler.process_scrape_urls envOk urlsC1w 1
        schedC1w).started →
      ∀ tr : List Desc, (i, tr) ∉ batchUploadEvents envOk urlsC1w schedC1w) :=
  c1_cancellation_amended envOk urlsC1w 1 schedC1w (by decide) rfl

def urlsC2 : List Url := ["a", "b", "c"]

/-- A cancelled single-worker run of three urls: one result consumed, one
more task finished unconsumed, one never started. -/
def schedC2 : Schedule 3 := ⟨[0], [1], true, fun _ => false⟩

/-- Claim C2 counterexample: with cancellation, the run above emits 1
per-task snapshot although 2 tasks were allowed to finish, so the dispatcher
does not emit one snapshot per task that was allowed to finish. -/
theorem c2_counterexample :
    Schedule.Valid schedC2 ∧ schedC2.cancelled = true ∧
    ¬ ((taskSnapshots (ScrapeHandler.process_scrape_urls envOk urlsC2 1
          schedC2)).length =
        (ScrapeHandler.process_scrape_urls envOk urlsC2 1
          schedC2).started.length) := by
  decide

/-- Claim C2 (corrected): without cancellation the dispatcher emits exactly
`n` per-task snapshots, one per task, each only after that task's result is
known and in the order results are consumed (completion order); with
cancellation it emits exactly one snapshot per task whose result the
dispatcher consumed before observing cancellation — possibly fewer than the
tasks that were allowed to finish. -/
theorem c2_snapshot_count_amended (env : ScrapeEnv) (urls : List Url)
    (max_workers : Nat) (s : Schedule urls.length) (hv : s.Valid) :
    (taskSnapshots (ScrapeHandler.process_scrape_urls env urls max_workers
        s)).length = s.consumedOrder.length ∧
    (s.cancelled = false →
      (taskSnapshots (ScrapeHandler.process_scrape_urls env urls max_workers
        s)).length = urls.length) ∧
    (∀ (j : Nat) (hj : j < s.consumedOrder.length),
      (taskSnapshots (ScrapeHandler.process_scrape_urls env urls max_workers
          s))[j]? =
        some ⟨j + 1, urls.length,
          urls.get (s.consumedOrder.get ⟨j, hj⟩),
          min (urls.length - (j + 1)) max_workers⟩) := by
  refine ⟨?_, ?_, ?_⟩
  · rw [taskSnapshots_process, emittedSnaps_length]
  · intro hc
    rw [taskSnapshots_process, emittedSnaps_length]
    exact s.consumed_length_of_uncancelled hv hc
  · intro j hj
    rw [taskSnapshots_process,
      emittedSnaps_getElem urls max_workers 0 s.consumedOrder j hj]
    simp

def urlsC2w : List Url := ["p", "q"]

/-- An uncancelled two-url run whose completion order reverses submission
order. -/
def schedC2w : Schedule 2 := ⟨[1, 0], [], false, fun _ => false⟩

/-- Witness for the amended C2 on a run completing in reverse order. -/
theorem c2_snapshot_count_amended_witness :
    (taskSnapshots (ScrapeHandler.process_scrape_urls envOk urlsC2w 2
        schedC2w)).length = schedC2w.consumedOrder.length ∧
    (schedC2w.cancelled = false →
      (taskSnapshots (ScrapeHandler.process_scrape_urls envOk urlsC2w 2
        schedC2w)).length = urlsC2w.length) ∧
    (∀ (j : Nat) (hj : j < schedC2w.consumedOrder.length),
      (taskSnapshots (ScrapeHandler.process_scrape_urls envOk urlsC2w 2
          schedC2w))[j]? =
        some ⟨j + 1, urlsC2w.length,
          urlsC2w.get (schedC2w.consumedOrder.get ⟨j, hj⟩),
          min (urlsC2w.length - (j + 1)) 2⟩) :=
  c2_snapshot_count_amended envOk urlsC2w 2 schedC2w (by decide)
